import Mathlib

/-!
Verification of the go-apns client (package `apns`): the binary codec for
outbound push packets and inbound feedback records, the `SendPayload`
state machine of `ApnsConn`, and the feedback-poller reconnect loop.

Machine integers are modelled as `Nat` (with explicit reductions modulo
`2 ^ w` where the Go code truncates) and as `Int` where the Go code uses
signed types (`int16`, `int32`).  Fallible operations return sum types.
I/O outcomes (dial, handshake, write, read) are supplied by explicit
oracle values so that the state transitions of the code become pure
functions.
-/

namespace Apns

/-! ## Byte-level helpers (big-endian, as in `encoding/binary` and `encoding/hex`) -/

/-- Big-endian byte string of width `w` for the value `n` (truncating:
each emitted byte is taken modulo 256, matching `binary.Write` of a
`w`-byte unsigned integer). -/
def beBytes : Nat → Nat → List Nat
  | 0, _ => []
  | w + 1, n => beBytes w (n / 256) ++ [n % 256]

/-- Lowercase hexadecimal digit, as produced by Go `encoding/hex`. -/
def hexDigit (n : Nat) : Char :=
  if n < 10 then Char.ofNat (48 + n) else Char.ofNat (87 + n)

/-- Model of Go `hex.EncodeToString`: two lowercase hex digits per byte,
high nibble first. -/
def hexEncodeToString (bs : List Nat) : String :=
  String.mk (bs.foldr (fun b acc => hexDigit (b / 16) :: hexDigit (b % 16) :: acc) [])

/-- Signed reinterpretation of a 16-bit unsigned value, as Go does when
`binary.Read` fills an `int16`. -/
def int16ofNat (u : Nat) : Int :=
  if u < 32768 then (u : Int) else (u : Int) - 65536

/-- Signed reinterpretation of a 32-bit unsigned value, as Go does when
`binary.Read` fills an `int32`. -/
def int32ofNat (u : Nat) : Int :=
  if u < 2147483648 then (u : Int) else (u : Int) - 4294967296

/-! ## Feedback-record decoder (`parseAppleFeedbackMessage` in feedback.go)

The Go function reads a big-endian `int32` timestamp from bytes 0-3 and a
big-endian `int16` token size from bytes 4-5 (both SIGNED types), checks
`6 + int(size) > len(readb)`, and then evaluates the slice expression
`readb[6 : 6+int(size)]`.  In Go that slice expression panics at run time
when the high bound is below the low bound, which happens exactly when
`size` is negative; the model makes that panic an explicit outcome. -/

/-- Result of running `parseAppleFeedbackMessage`: a returned error, a Go
runtime panic raised by an out-of-range slice expression, or a decoded
record (`Time_t`, `DeviceToken`). -/
inductive ParseResult where
  | failure (msg : String)
  | panics (msg : String)
  | ok (timeT : Int) (deviceToken : String)
deriving DecidableEq, Repr

/-- Model of `parseAppleFeedbackMessage` from feedback.go, byte list in,
`ParseResult` out.  Mirrors the source line by line: length guard, signed
reads, the `6 + int(size) > len(readb)` guard, then the slice
`readb[6 : 6+int(size)]` (which panics when `int(size) < 0`) rendered to
lowercase hex. -/
def parseAppleFeedbackMessage (readb : List Nat) : ParseResult :=
  if readb.length < 6 then .failure "Not enough data in slice"
  else
    let timeT : Int := int32ofNat
      (readb.getD 0 0 * 16777216 + readb.getD 1 0 * 65536 +
       readb.getD 2 0 * 256 + readb.getD 3 0)
    let size : Int := int16ofNat (readb.getD 4 0 * 256 + readb.getD 5 0)
    if (6 : Int) + size > (readb.length : Int) then
      .failure "The Message size for the DeviceToken is bigger than the given buffer"
    else if size < 0 then
      .panics "slice bounds out of range"
    else
      .ok timeT (hexEncodeToString ((readb.drop 6).take size.toNat))

/-- Wire layout of one inbound feedback record, as the spec states it:
`u32 timestampEpoch | u16 tokenLen | token`, all big-endian. -/
def encodeFeedbackRecord (timestamp : Nat) (token : List Nat) : List Nat :=
  beBytes 4 timestamp ++ beBytes 2 token.length ++ token

/-! ## Outbound packet encoder (`bwrite`, `createCommandOnePacket`) -/

/-- One argument of the variadic `bwrite` utility: the value kinds that
`createCommandOnePacket` passes to `binary.Write`. -/
inductive BinValue where
  | u8 (v : Nat)
  | u16 (v : Nat)
  | u32 (v : Nat)
  | bytes (bs : List Nat)

/-- Bytes emitted by one `binary.Write(w, binary.BigEndian, v)` call.  On
the value kinds used here `binary.Write` cannot fail, but the model keeps
the `error` result of the source. -/
def binaryWrite : BinValue → Except String (List Nat)
  | .u8 v => .ok [v % 256]
  | .u16 v => .ok (beBytes 2 v)
  | .u32 v => .ok (beBytes 4 v)
  | .bytes bs => .ok bs

/-- Model of `bwrite`: folds `binary.Write` over the argument list into a
growing buffer, stopping at the first error. -/
def bwrite : List BinValue → Except String (List Nat)
  | [] => .ok []
  | v :: vs =>
    match binaryWrite v with
    | .error e => .error e
    | .ok bs =>
      match bwrite vs with
      | .error e => .error e
      | .ok rest => .ok (bs ++ rest)

/-- Model of `createCommandOnePacket`.  The source computes
`expirationTime = uint32(time.Now().UTC().Add(expiration).Unix())`; the
model takes that already-computed 32-bit epoch value as the parameter
`expirationTime`. -/
def createCommandOnePacket (transactionId expirationTime : Nat)
    (token payload : List Nat) : Except String (List Nat) :=
  bwrite [.u8 1, .u32 transactionId, .u32 expirationTime,
          .u16 token.length, .bytes token,
          .u16 payload.length, .bytes payload]

/-- The extended-push wire layout exactly as the spec words it:
`u8(1) | u32 transactionId | u32 expirationEpoch | u16 tokenLen | token |
u16 payloadLen | payload`. -/
def extendedPushSpecBytes (transactionId expirationTime : Nat)
    (token payload : List Nat) : List Nat :=
  [1] ++ beBytes 4 transactionId ++ beBytes 4 expirationTime ++
    beBytes 2 token.length ++ token ++ beBytes 2 payload.length ++ payload

/-! ## Connection state machine (`ApnsConn`, `connect`, `shutdown`)

The `tlsconn` field of the Go struct is a pointer that `connect` fills
and `shutdown` closes but never sets back to `nil`; the model keeps the
handle as an `Option` with per-handle flags for "still open" and
"handshake succeeded". -/

/-- State of one `*tls.Conn` handle held by the client. -/
structure Handle where
  isOpen : Bool
  established : Bool
deriving DecidableEq, Repr

/-- Model of the `ApnsConn` struct fields that the state machine reads
and writes: the stream handle, the transaction counter, the payload
limit, and the `connected` flag. -/
structure ApnsConn where
  tlsconn : Option Handle
  transactionId : Nat
  MAX_PAYLOAD_SIZE : Nat
  connected : Bool
deriving DecidableEq, Repr

/-- The client as `NewClient` builds it: no handle, counter 0, payload
limit 256, not connected. -/
def newClient : ApnsConn :=
  { tlsconn := none, transactionId := 0, MAX_PAYLOAD_SIZE := 256, connected := false }

/-- Model of `shutdown`: if a handle exists, close it and clear the
`connected` flag; the handle itself is kept (the Go code never nils the
pointer).  With no handle it is a no-op. -/
def shutdown (client : ApnsConn) : ApnsConn :=
  match client.tlsconn with
  | none => client
  | some h => { client with tlsconn := some { h with isOpen := false }, connected := false }

/-- Outcome of the dial plus TLS handshake that `connect` performs,
supplied as an oracle. -/
inductive ConnectOutcome where
  | dialFail
  | handshakeFail
  | handshakeOk
deriving DecidableEq, Repr

/-- Model of `connect`: no-op when already connected; otherwise shut a
stale handle, dial, wrap in TLS and handshake.  Only a successful
handshake sets `connected`.  Returns the new state and whether an error
was returned. -/
def connect (client : ApnsConn) (o : ConnectOutcome) : ApnsConn × Bool :=
  if client.connected then (client, false)
  else
    let client := if client.tlsconn.isSome then shutdown client else client
    match o with
    | .dialFail => (client, true)
    | .handshakeFail =>
      ({ client with tlsconn := some ⟨true, false⟩ }, true)
    | .handshakeOk =>
      ({ client with tlsconn := some ⟨true, true⟩, connected := true }, false)

/-! ## `SendPayload` -/

/-- Result of one `SendPayload` call, one constructor per distinct
`return` path of the source.  `ok` is the `nil` error. -/
inductive SendResult where
  | ok
  | payloadTooLarge
  | connectFail
  | encodeFail
  | writeFail
  | readFail
  | rejection (msg : String)
  | unknownStatus (msg : String)
deriving DecidableEq, Repr

/-- `true` exactly when the Go `err` named return is non-nil, which is
what the deferred `if err != nil { client.shutdown() }` tests. -/
def isErr : SendResult → Bool
  | .ok => false
  | _ => true

/-- The deferred handler of `SendPayload`: on a non-nil error the client
is shut down before the call returns. -/
def finishSend (client : ApnsConn) (r : SendResult) : ApnsConn × SendResult :=
  if isErr r then (shutdown client, r) else (client, r)

/-- Outcome of the bounded read that `SendPayload` performs after
writing: a timeout (`net.Error` with `Timeout() == true`), some other
read error, or `n` bytes received (`bs = readb[:n]`, at most 6 bytes). -/
inductive ReadOutcome where
  | timeout
  | fail
  | bytes (bs : List Nat)
deriving DecidableEq, Repr

/-- Oracle for the I/O performed by one `SendPayload` call: the
dial/handshake outcome, the 32-bit expiration epoch the source computes
from `time.Now()`, whether the packet write succeeds, and the read
outcome. -/
structure SendOracle where
  connectOutcome : ConnectOutcome
  expirationTime : Nat
  writeOk : Bool
  readOutcome : ReadOutcome
deriving DecidableEq, Repr

/-- Model of the `errText` map of feedback.go; a missing key yields the
zero value `""` as a Go map read does. -/
def errText : Nat → String
  | 0 => "No errors encountered"
  | 1 => "Processing Errors"
  | 2 => "Missing Device Token"
  | 3 => "Missing Topic"
  | 4 => "Missing Payload"
  | 5 => "Invalid Token Size"
  | 6 => "Invalid Topic Size"
  | 7 => "Invalid Payload Size"
  | 8 => "Invalid Token"
  | 255 => "None (Unknown)"
  | _ => ""

/-- The `switch status` of `SendPayload` on a reply of more than one
byte: status 0 falls through to success, the nine enumerated codes
return their `errText` message, anything else returns the unknown-code
error carrying the hex of the bytes read. -/
def processStatus (client : ApnsConn) (frame : List Nat) : ApnsConn × SendResult :=
  let status := frame.getD 1 0
  if status = 0 then finishSend client .ok
  else if status = 1 ∨ status = 2 ∨ status = 3 ∨ status = 4 ∨ status = 5 ∨
      status = 6 ∨ status = 7 ∨ status = 8 ∨ status = 255 then
    finishSend client (.rejection (errText status))
  else
    finishSend client (.unknownStatus ("Unknown error code " ++ hexEncodeToString frame ++ " "))

/-- Model of `SendPayload`: size guard before any locking or I/O, then
connect, increment the 32-bit transaction counter, encode, write, read
with deadline, interpret the reply.  Every error return passes through
`finishSend`, the model of the deferred shutdown-on-error. -/
def SendPayload (client : ApnsConn) (token payload : List Nat) (o : SendOracle) :
    ApnsConn × SendResult :=
  if client.MAX_PAYLOAD_SIZE < payload.length then (client, .payloadTooLarge)
  else
    let p := connect client o.connectOutcome
    if p.2 then finishSend p.1 .connectFail
    else
      let c2 := { p.1 with transactionId := (p.1.transactionId + 1) % 4294967296 }
      match createCommandOnePacket c2.transactionId o.expirationTime token payload with
      | .error _ => finishSend c2 .encodeFail
      | .ok _ =>
        if o.writeOk then
          match o.readOutcome with
          | .timeout => finishSend c2 .ok
          | .fail => finishSend c2 .readFail
          | .bytes frame =>
            if 1 < frame.length then processStatus c2 frame
            else finishSend c2 .ok
        else finishSend c2 .writeFail

/-! ## Operation sequences on one client -/

/-- One observable operation on a client, with its I/O oracle. -/
inductive Op where
  | connectOp (o : ConnectOutcome)
  | shutdownOp
  | sendOp (token payload : List Nat) (so : SendOracle)

/-- State after one operation. -/
def stepOp (client : ApnsConn) : Op → ApnsConn
  | .connectOp o => (connect client o).1
  | .shutdownOp => shutdown client
  | .sendOp token payload so => (SendPayload client token payload so).1

/-- State after a sequence of operations. -/
def runOps (client : ApnsConn) (ops : List Op) : ApnsConn :=
  ops.foldl stepOp client

/-- The connection invariant of the spec, as a boolean check: the
`connected` flag is set exactly when a handle is present, still open,
and its handshake succeeded. -/
def clientInvariant (client : ApnsConn) : Bool :=
  client.connected == (match client.tlsconn with
    | some h => h.isOpen && h.established
    | none => false)

/-- A client holding one live, handshaken connection: the state of
`ApnsConn` right after a successful `connect`. -/
def connectedClient : ApnsConn :=
  { tlsconn := some ⟨true, true⟩, transactionId := 0, MAX_PAYLOAD_SIZE := 256,
    connected := true }

/-! ## Feedback poller reconnect loop (`StartListening`)

After `Read` returns `io.EOF` the goroutine runs
`for count := 0; count < 3; count += 1`, each iteration shutting down,
sleeping and reconnecting; a successful reconnect breaks out, and the
body ends with `if count == 3 { panic(...) }`.  The model follows that
control flow with the per-attempt connect outcomes as an oracle. -/

/-- Outcome of the reconnect `for` loop: a successful reconnect at some
attempt, the `panic` call inside the loop body, or normal loop exit with
no reconnect (control falls through to the next `Read`). -/
inductive RetryOutcome where
  | reconnected (attempt : Nat)
  | panicked (msg : String)
  | fellThrough
deriving DecidableEq, Repr

/-- The reconnect loop from `count` upward: guard `count < 3`, attempt a
reconnect (`connectOk count`), break on success, then the
`if count == 3` panic check, then the increment. -/
def reconnectLoop (connectOk : Nat → Bool) (count : Nat) : RetryOutcome :=
  if count < 3 then
    if connectOk count then .reconnected count
    else if count == 3 then
      .panicked "Failed reconnecting more than 3 times to the feedback service"
    else reconnectLoop connectOk (count + 1)
  else .fellThrough
termination_by 3 - count

/-- One read event seen by the poller goroutine. -/
inductive ReadEvent where
  | eof
  | readErr
  | received (bs : List Nat)

/-- What one iteration of the poller loop does next. -/
inductive LoopOutcome where
  | continueReading
  | fatalPanic (msg : String)
  | emitAndContinue (timeT : Int) (deviceToken : String)
deriving DecidableEq, Repr

/-- One iteration of the `StartListening` goroutine loop: on `io.EOF`
run the reconnect loop (both a reconnect and a fall-through land back at
the next `Read`); on another read error close the channel and panic; on
data, parse and either emit the record or panic on a parse error. -/
def feedbackLoopBody (ev : ReadEvent) (connectOk : Nat → Bool) : LoopOutcome :=
  match ev with
  | .eof =>
    match reconnectLoop connectOk 0 with
    | .reconnected _ => .continueReading
    | .panicked m => .fatalPanic m
    | .fellThrough => .continueReading
  | .readErr => .fatalPanic "read error"
  | .received bs =>
    match parseAppleFeedbackMessage bs with
    | .failure m => .fatalPanic m
    | .panics m => .fatalPanic m
    | .ok t tok => .emitAndContinue t tok

/-! ## Helper lemmas: codec -/

lemma beBytes_two (n : Nat) : beBytes 2 n = [n / 256 % 256, n % 256] := by
  simp [beBytes, Nat.div_div_eq_div_mul]

lemma beBytes_four (n : Nat) :
    beBytes 4 n = [n / 16777216 % 256, n / 65536 % 256, n / 256 % 256, n % 256] := by
  simp [beBytes, Nat.div_div_eq_div_mul]

lemma parse_ok_of (readb : List Nat) (h6 : 6 ≤ readb.length)
    (hsu : readb.getD 4 0 * 256 + readb.getD 5 0 < 32768)
    (hfit : 6 + (readb.getD 4 0 * 256 + readb.getD 5 0) ≤ readb.length) :
    parseAppleFeedbackMessage readb =
      .ok (int32ofNat (readb.getD 0 0 * 16777216 + readb.getD 1 0 * 65536 +
             readb.getD 2 0 * 256 + readb.getD 3 0))
          (hexEncodeToString ((readb.drop 6).take
             (readb.getD 4 0 * 256 + readb.getD 5 0))) := by
  simp only [parseAppleFeedbackMessage]
  have hs : int16ofNat (readb.getD 4 0 * 256 + readb.getD 5 0) =
      ((readb.getD 4 0 * 256 + readb.getD 5 0 : Nat) : Int) := by
    unfold int16ofNat; rw [if_pos (by omega)]
  rw [hs, if_neg (by omega), if_neg (by omega), if_neg (by omega), Int.toNat_natCast]

lemma parse_panics_of_negative_size (readb : List Nat) (h6 : 6 ≤ readb.length)
    (hlo : 32768 ≤ readb.getD 4 0 * 256 + readb.getD 5 0)
    (hhi : readb.getD 4 0 * 256 + readb.getD 5 0 < 65536) :
    parseAppleFeedbackMessage readb = .panics "slice bounds out of range" := by
  simp only [parseAppleFeedbackMessage]
  have hs : int16ofNat (readb.getD 4 0 * 256 + readb.getD 5 0) =
      ((readb.getD 4 0 * 256 + readb.getD 5 0 : Nat) : Int) - 65536 := by
    unfold int16ofNat; rw [if_neg (by omega)]
  rw [hs, if_neg (by omega), if_neg (by omega), if_pos (by omega)]

lemma parse_panics_on_oversize_declared_length (filler : List Nat)
    (hf : filler.length = 32768) :
    parseAppleFeedbackMessage ((beBytes 4 0 ++ beBytes 2 32768 ++ filler) ++ [7, 7]) =
      .panics "slice bounds out of range" := by
  have h : (beBytes 4 0 ++ beBytes 2 32768 ++ filler) ++ [7, 7] =
      0 :: 0 :: 0 :: 0 :: 128 :: 0 :: (filler ++ [7, 7]) := by
    simp [beBytes_four, beBytes_two]
  rw [h]
  apply parse_panics_of_negative_size
  · simp [hf]
  · simp only [List.getD_cons_succ, List.getD_cons_zero]; norm_num
  · simp only [List.getD_cons_succ, List.getD_cons_zero]; norm_num

lemma createCommandOnePacket_eq (transactionId expirationTime : Nat)
    (token payload : List Nat) :
    createCommandOnePacket transactionId expirationTime token payload =
      .ok (extendedPushSpecBytes transactionId expirationTime token payload) := by
  simp [createCommandOnePacket, bwrite, binaryWrite, extendedPushSpecBytes]

/-! ## Helper lemmas: connection state machine -/

lemma connect_ok_connected (client : ApnsConn) (o : ConnectOutcome)
    (h : (connect client o).2 = false) : (connect client o).1.connected = true := by
  by_cases hc : client.connected
  · simp [connect, hc]
  · cases o <;> simp_all [connect]

lemma inv_shutdown (c : ApnsConn) (h : clientInvariant c = true) :
    clientInvariant (shutdown c) = true := by
  unfold clientInvariant shutdown at *
  cases htl : c.tlsconn <;> simp_all

lemma shutdown_connected_false (c : ApnsConn) (h : clientInvariant c = true) :
    (shutdown c).connected = false := by
  unfold clientInvariant shutdown at *
  cases htl : c.tlsconn <;> simp_all

lemma shutdown_keeps_not_connected (c : ApnsConn) (h : c.connected = false) :
    (shutdown c).connected = false := by
  unfold shutdown
  cases htl : c.tlsconn <;> simp_all

lemma inv_transactionId (c : ApnsConn) (n : Nat) :
    clientInvariant { c with transactionId := n } = clientInvariant c := by
  cases c; rfl

lemma inv_connect (c : ApnsConn) (o : ConnectOutcome) (h : clientInvariant c = true) :
    clientInvariant (connect c o).1 = true := by
  by_cases hc : c.connected
  · simp [connect, hc, h]
  · have h2 : clientInvariant (if c.tlsconn.isSome then shutdown c else c) = true := by
      split
      · exact inv_shutdown c h
      · exact h
    have h3 : (if c.tlsconn.isSome then shutdown c else c).connected = false := by
      split
      · exact shutdown_keeps_not_connected c (by simp [hc])
      · simp [hc]
    cases o <;> simp_all [connect, clientInvariant]

lemma connect_handshakeFail_connected (c : ApnsConn) (h : c.connected = false) :
    (connect c .handshakeFail).1.connected = false := by
  have h3 : (if c.tlsconn.isSome then shutdown c else c).connected = false := by
    split
    · exact shutdown_keeps_not_connected c h
    · exact h
  simp only [connect, h]
  rw [if_neg (by simp)]
  simpa using h3

lemma inv_finishSend (c : ApnsConn) (r : SendResult) (h : clientInvariant c = true) :
    clientInvariant (finishSend c r).1 = true := by
  unfold finishSend
  split
  · exact inv_shutdown c h
  · exact h

/-! ## Helper lemmas: SendPayload -/

lemma sendPayload_main (client : ApnsConn) (token payload : List Nat) (o : SendOracle)
    (h1 : payload.length ≤ client.MAX_PAYLOAD_SIZE)
    (h2 : (connect client o.connectOutcome).2 = false)
    (h3 : o.writeOk = true) :
    SendPayload client token payload o =
      (let c2 := { (connect client o.connectOutcome).1 with
        transactionId := ((connect client o.connectOutcome).1.transactionId + 1) % 4294967296 }
       match o.readOutcome with
       | .timeout => finishSend c2 .ok
       | .fail => finishSend c2 .readFail
       | .bytes frame =>
         if 1 < frame.length then processStatus c2 frame
         else finishSend c2 .ok) := by
  simp only [SendPayload, createCommandOnePacket_eq, h2, h3]
  rw [if_neg (by omega)]
  simp

lemma inv_SendPayload (c : ApnsConn) (token payload : List Nat) (o : SendOracle)
    (h : clientInvariant c = true) :
    clientInvariant (SendPayload c token payload o).1 = true := by
  have hc2 : clientInvariant { (connect c o.connectOutcome).1 with
      transactionId := ((connect c o.connectOutcome).1.transactionId + 1) % 4294967296 } = true := by
    rw [inv_transactionId]
    exact inv_connect c o.connectOutcome h
  simp only [SendPayload, createCommandOnePacket_eq, processStatus]
  repeat' split
  all_goals first
    | exact h
    | exact inv_finishSend _ _ hc2

lemma inv_stepOp (c : ApnsConn) (op : Op) (h : clientInvariant c = true) :
    clientInvariant (stepOp c op) = true := by
  cases op with
  | connectOp o => exact inv_connect c o h
  | shutdownOp => exact inv_shutdown c h
  | sendOp token payload so => exact inv_SendPayload c token payload so h

lemma inv_runOps (c : ApnsConn) (ops : List Op) (h : clientInvariant c = true) :
    clientInvariant (runOps c ops) = true := by
  induction ops generalizing c with
  | nil => exact h
  | cons op ops ih => exact ih (stepOp c op) (inv_stepOp c op h)

/-! ## Claim theorems -/

/-- Claim C3: the claim states that for every buffer of length at least 6
whose declared unsigned 16-bit token length at bytes 4-5 exceeds the
bytes available after the 6-byte header, the decoder returns a
malformed-record error before any slicing, and never performs an
out-of-range access for any input.  The code violates this: the input
`[0,0,0,0,0xFF,0xFF]` declares unsigned token length 65535 with 0 bytes
available, yet the decoder reads the length into a signed `int16` as -1,
the `6 + int(size) > len` guard passes (5 > 6 is false), and the slice
`readb[6:5]` raises a runtime panic instead of returning the error. -/
theorem oversized_token_length_panics :
    parseAppleFeedbackMessage [0, 0, 0, 0, 255, 255] =
      .panics "slice bounds out of range" := by
  decide

/-- Claim C8, counterexample: the round trip fails as stated.  For
timestamp `2^31` and the empty token, decoding the wire encoding
succeeds but returns the timestamp as `-2^31` (the `Time_t` field is a
signed `int32`), not `2^31` as the claim requires. -/
theorem roundtrip_counterexample :
    parseAppleFeedbackMessage (encodeFeedbackRecord 2147483648 []) =
      .ok (-2147483648) "" ∧
    (parseAppleFeedbackMessage (encodeFeedbackRecord 2147483648 []) ==
      .ok (2147483648 : Int) "") = false := by
  decide

/-- Claim C8, amended: for every timestamp below `2^31` and every token
whose length is at most 32767, decoding the wire encoding
`[u32 timestamp][u16 len(token)][token]` succeeds and returns exactly
that timestamp and the token rendered as lowercase hex. -/
theorem feedback_record_roundtrip (ts : Nat) (hts : ts < 2147483648)
    (token : List Nat) (hlen : token.length ≤ 32767) :
    parseAppleFeedbackMessage (encodeFeedbackRecord ts token) =
      .ok (ts : Int) (hexEncodeToString token) := by
  have hrec : encodeFeedbackRecord ts token =
      ts / 16777216 % 256 :: ts / 65536 % 256 :: ts / 256 % 256 :: ts % 256 ::
      token.length / 256 % 256 :: token.length % 256 :: token := by
    simp [encodeFeedbackRecord, beBytes_four, beBytes_two]
  rw [hrec]
  unfold parseAppleFeedbackMessage
  simp only [List.length_cons, List.getD_cons_zero, List.getD_cons_succ,
    List.drop_succ_cons, List.drop_zero]
  have hu : ts / 16777216 % 256 * 16777216 + ts / 65536 % 256 * 65536 +
      ts / 256 % 256 * 256 + ts % 256 = ts := by omega
  have hsu : token.length / 256 % 256 * 256 + token.length % 256 = token.length := by omega
  rw [hu, hsu]
  simp only [int16ofNat, int32ofNat]
  rw [if_pos (show token.length < 32768 by omega), if_pos hts]
  rw [if_neg (by omega), if_neg (by omega), if_neg (by omega)]
  simp [List.take_of_length_le]

/-- Claim C8, witness: decoding the encoding of timestamp 7 with token
bytes `[0x0A, 0x0B, 0x0C]` yields timestamp 7 and device token
`"0a0b0c"`. -/
theorem feedback_record_roundtrip_witness :
    parseAppleFeedbackMessage (encodeFeedbackRecord 7 [10, 11, 12]) =
      .ok 7 "0a0b0c" := by
  have h := feedback_record_roundtrip 7 (by norm_num) [10, 11, 12] (by norm_num)
  rw [h]
  decide

/-- Claim C10, counterexample: a buffer that begins with one complete
valid feedback record (declared token length 32768, with all 32768 token
bytes present) followed by two trailing bytes is not decoded to that
first record: the decoder reads the declared length as the negative
signed `int16` value -32768 and panics on the slice bounds, returning no
record at all. -/
theorem first_record_counterexample :
    parseAppleFeedbackMessage
      ((beBytes 4 0 ++ beBytes 2 32768 ++ List.replicate 32768 0) ++ [7, 7]) =
      .panics "slice bounds out of range" :=
  parse_panics_on_oversize_declared_length (List.replicate 32768 0)
    (List.length_replicate 32768 0)

/-- Claim C10, amended: for every buffer that begins with one complete
valid feedback record whose declared token length is at most 32767,
followed by any trailing bytes, the decoder returns exactly the first
record; the trailing bytes (including further concatenated records) do
not affect the result and are silently discarded. -/
theorem first_record_only (rec trailing : List Nat)
    (hL : rec.getD 4 0 * 256 + rec.getD 5 0 ≤ 32767)
    (hlen : rec.length = 6 + (rec.getD 4 0 * 256 + rec.getD 5 0)) :
    parseAppleFeedbackMessage (rec ++ trailing) = parseAppleFeedbackMessage rec ∧
    parseAppleFeedbackMessage rec =
      .ok (int32ofNat (rec.getD 0 0 * 16777216 + rec.getD 1 0 * 65536 +
             rec.getD 2 0 * 256 + rec.getD 3 0))
          (hexEncodeToString (rec.drop 6)) := by
  have hdl : (rec.drop 6).length = rec.getD 4 0 * 256 + rec.getD 5 0 := by
    rw [List.length_drop]; omega
  have htake : (rec.drop 6).take (rec.getD 4 0 * 256 + rec.getD 5 0) = rec.drop 6 :=
    List.take_of_length_le (by omega)
  have hrec : parseAppleFeedbackMessage rec =
      .ok (int32ofNat (rec.getD 0 0 * 16777216 + rec.getD 1 0 * 65536 +
             rec.getD 2 0 * 256 + rec.getD 3 0))
          (hexEncodeToString (rec.drop 6)) := by
    rw [parse_ok_of rec (by omega) (by omega) (by omega), htake]
  refine ⟨?_, hrec⟩
  have hgd : ∀ i, i < 6 → (rec ++ trailing).getD i 0 = rec.getD i 0 := fun i hi =>
    List.getD_append _ _ _ _ (by omega)
  have happ : parseAppleFeedbackMessage (rec ++ trailing) =
      .ok (int32ofNat ((rec ++ trailing).getD 0 0 * 16777216 +
             (rec ++ trailing).getD 1 0 * 65536 +
             (rec ++ trailing).getD 2 0 * 256 + (rec ++ trailing).getD 3 0))
          (hexEncodeToString (((rec ++ trailing).drop 6).take
             ((rec ++ trailing).getD 4 0 * 256 + (rec ++ trailing).getD 5 0))) :=
    parse_ok_of (rec ++ trailing)
      (by rw [List.length_append]; omega)
      (by rw [hgd 4 (by omega), hgd 5 (by omega)]; omega)
      (by rw [hgd 4 (by omega), hgd 5 (by omega), List.length_append]; omega)
  rw [happ, hrec,
    hgd 0 (by omega), hgd 1 (by omega), hgd 2 (by omega), hgd 3 (by omega),
    hgd 4 (by omega), hgd 5 (by omega),
    List.drop_append_of_le_length (by omega),
    List.take_append_of_le_length (by omega), htake]

/-- Claim C10, witness: a read containing the record
`[0,0,0,0,0,3,0x0A,0x0B,0x0C]` followed by a second complete record
decodes to the first record only, exactly as if the trailing record were
absent. -/
theorem first_record_only_witness :
    parseAppleFeedbackMessage
      ([0, 0, 0, 0, 0, 3, 10, 11, 12] ++ [0, 0, 0, 1, 0, 1, 255]) =
      parseAppleFeedbackMessage [0, 0, 0, 0, 0, 3, 10, 11, 12] ∧
    parseAppleFeedbackMessage [0, 0, 0, 0, 0, 3, 10, 11, 12] = .ok 0 "0a0b0c" :=
  ⟨(first_record_only [0, 0, 0, 0, 0, 3, 10, 11, 12] [0, 0, 0, 1, 0, 1, 255]
      (by decide) (by decide)).1, by decide⟩

/-- Claim C7: for every transaction id, expiration epoch value, token and
payload, the extended-push encoder produces exactly the bytes
`[u8 1][u32 transactionId][u32 expirationEpochSeconds][u16 len(token)]
[token][u16 len(payload)][payload]`, all multi-byte integers
big-endian. -/
theorem extended_push_wire_format (transactionId expirationTime : Nat)
    (token payload : List Nat) :
    createCommandOnePacket transactionId expirationTime token payload =
      .ok ([1] ++ beBytes 4 transactionId ++ beBytes 4 expirationTime ++
        beBytes 2 token.length ++ token ++ beBytes 2 payload.length ++ payload) := by
  simp [createCommandOnePacket, bwrite, binaryWrite]

/-- Claim C5: for every payload longer than MAX_PAYLOAD_SIZE, SendPayload
returns the payload-too-large error immediately, for every I/O oracle:
no connect, write, read or shutdown happens and the client state
(including the connected flag and the transaction counter) is returned
unchanged. -/
theorem payload_guard_before_transport (client : ApnsConn)
    (token payload : List Nat) (o : SendOracle)
    (h : client.MAX_PAYLOAD_SIZE < payload.length) :
    SendPayload client token payload o = (client, .payloadTooLarge) := by
  simp [SendPayload, h]

/-- Claim C5, witness: a 257-byte payload against the default 256-byte
limit is rejected with the client state unchanged. -/
theorem payload_guard_before_transport_witness :
    SendPayload connectedClient [] (List.replicate 257 0)
      ⟨.handshakeOk, 0, true, .timeout⟩ = (connectedClient, .payloadTooLarge) :=
  payload_guard_before_transport connectedClient [] (List.replicate 257 0)
    ⟨.handshakeOk, 0, true, .timeout⟩ (by rw [List.length_replicate]; decide)

/-- Claim C4: for every SendPayload call whose write succeeds and whose
read fails with a timeout, the call returns success (nil error) and the
connection is not shut down: the connected flag remains true. -/
theorem timeout_read_is_success (client : ApnsConn)
    (token payload : List Nat) (o : SendOracle)
    (h1 : payload.length ≤ client.MAX_PAYLOAD_SIZE)
    (h2 : (connect client o.connectOutcome).2 = false)
    (h3 : o.writeOk = true)
    (h4 : o.readOutcome = .timeout) :
    (SendPayload client token payload o).2 = .ok ∧
    (SendPayload client token payload o).1.connected = true := by
  rw [sendPayload_main client token payload o h1 h2 h3]
  rw [h4]
  simp only [finishSend, isErr]
  refine ⟨by simp, ?_⟩
  simp only [if_neg (by simp : ¬ (false = true))]
  show ({ (connect client o.connectOutcome).1 with
    transactionId := _ }).connected = true
  simp [connect_ok_connected client o.connectOutcome h2]

/-- Claim C4, witness: on a connected client, a write followed by a read
timeout yields the nil error and leaves the connected flag true. -/
theorem timeout_read_is_success_witness :
    (SendPayload connectedClient [1] [2] ⟨.handshakeOk, 0, true, .timeout⟩).2 = .ok ∧
    (SendPayload connectedClient [1] [2]
      ⟨.handshakeOk, 0, true, .timeout⟩).1.connected = true :=
  timeout_read_is_success connectedClient [1] [2] ⟨.handshakeOk, 0, true, .timeout⟩
    (by decide) (by decide) rfl rfl

/-- Claim C2, counterexample: the claim states that after an enumerated
nonzero status reply the connection is left open with the connected flag
still true.  The code violates this: on a connected client a reply frame
with status byte 8 returns the Invalid Token rejection, and the deferred
`if err != nil { client.shutdown() }` handler closes the connection, so
the connected flag is false after the call. -/
theorem rejection_shutdown_counterexample :
    (SendPayload connectedClient [] []
      ⟨.handshakeOk, 0, true, .bytes [8, 8, 0, 0, 0, 0]⟩).2 =
      .rejection "Invalid Token" ∧
    (SendPayload connectedClient [] []
      ⟨.handshakeOk, 0, true, .bytes [8, 8, 0, 0, 0, 0]⟩).1.connected = false := by
  decide

/-- Claim C2, amended: for every SendPayload call in which the remote
replies with a nonzero enumerated status (1-8 or 255), the client
returns the corresponding application-level rejection and shuts the
connection down: the deferred error handler invokes shutdown on every
non-nil error return, so the connected flag is false after the call. -/
theorem rejection_closes_connection (client : ApnsConn)
    (token payload : List Nat) (o : SendOracle)
    (frame : List Nat) (s : Nat)
    (hinv : clientInvariant client = true)
    (h1 : payload.length ≤ client.MAX_PAYLOAD_SIZE)
    (h2 : (connect client o.connectOutcome).2 = false)
    (h3 : o.writeOk = true)
    (h4 : o.readOutcome = .bytes frame)
    (h5 : 1 < frame.length)
    (h6 : frame.getD 1 0 = s)
    (h7 : s = 1 ∨ s = 2 ∨ s = 3 ∨ s = 4 ∨ s = 5 ∨ s = 6 ∨ s = 7 ∨ s = 8 ∨ s = 255) :
    (SendPayload client token payload o).2 = .rejection (errText s) ∧
    (SendPayload client token payload o).1.connected = false := by
  rw [sendPayload_main client token payload o h1 h2 h3, h4]
  simp only [if_pos h5, processStatus, h6]
  rw [if_neg (by omega), if_pos h7]
  simp only [finishSend, isErr, if_pos rfl]
  refine ⟨rfl, ?_⟩
  apply shutdown_connected_false
  rw [inv_transactionId]
  exact inv_connect client o.connectOutcome hinv

/-- Claim C2, witness: a status-1 reply on a connected client yields the
Processing Errors rejection and a client whose connected flag is
false. -/
theorem rejection_closes_connection_witness :
    (SendPayload connectedClient [1] [2]
      ⟨.handshakeOk, 0, true, .bytes [8, 1, 0, 0, 0, 0]⟩).2 =
      .rejection (errText 1) ∧
    (SendPayload connectedClient [1] [2]
      ⟨.handshakeOk, 0, true, .bytes [8, 1, 0, 0, 0, 0]⟩).1.connected = false :=
  rejection_closes_connection connectedClient [1] [2]
    ⟨.handshakeOk, 0, true, .bytes [8, 1, 0, 0, 0, 0]⟩ [8, 1, 0, 0, 0, 0] 1
    (by decide) (by decide) (by decide) rfl rfl (by decide) rfl (Or.inl rfl)

/-- Claim C6: for every error-response frame of at least 2 bytes read by
SendPayload, status byte 8 yields the rejection "Invalid Token", status
255 yields "None (Unknown)", each enumerated status 1-7 yields its table
message, and any other nonzero status yields an unknown-status error
whose message contains the lowercase hex encoding of the raw frame bytes
read. -/
theorem status_byte_messages (client : ApnsConn)
    (token payload : List Nat) (o : SendOracle) (frame : List Nat)
    (h1 : payload.length ≤ client.MAX_PAYLOAD_SIZE)
    (h2 : (connect client o.connectOutcome).2 = false)
    (h3 : o.writeOk = true)
    (h4 : o.readOutcome = .bytes frame)
    (h5 : 1 < frame.length) :
    (frame.getD 1 0 = 8 →
      (SendPayload client token payload o).2 = .rejection "Invalid Token") ∧
    (frame.getD 1 0 = 255 →
      (SendPayload client token payload o).2 = .rejection "None (Unknown)") ∧
    (frame.getD 1 0 = 1 →
      (SendPayload client token payload o).2 = .rejection "Processing Errors") ∧
    (frame.getD 1 0 = 2 →
      (SendPayload client token payload o).2 = .rejection "Missing Device Token") ∧
    (frame.getD 1 0 = 3 →
      (SendPayload client token payload o).2 = .rejection "Missing Topic") ∧
    (frame.getD 1 0 = 4 →
      (SendPayload client token payload o).2 = .rejection "Missing Payload") ∧
    (frame.getD 1 0 = 5 →
      (SendPayload client token payload o).2 = .rejection "Invalid Token Size") ∧
    (frame.getD 1 0 = 6 →
      (SendPayload client token payload o).2 = .rejection "Invalid Topic Size") ∧
    (frame.getD 1 0 = 7 →
      (SendPayload client token payload o).2 = .rejection "Invalid Payload Size") ∧
    (¬ (frame.getD 1 0 = 0) →
      ¬ (frame.getD 1 0 = 1 ∨ frame.getD 1 0 = 2 ∨ frame.getD 1 0 = 3 ∨
         frame.getD 1 0 = 4 ∨ frame.getD 1 0 = 5 ∨ frame.getD 1 0 = 6 ∨
         frame.getD 1 0 = 7 ∨ frame.getD 1 0 = 8 ∨ frame.getD 1 0 = 255) →
      (SendPayload client token payload o).2 =
        .unknownStatus ("Unknown error code " ++ hexEncodeToString frame ++ " ")) := by
  have heq : (SendPayload client token payload o).2 =
      (processStatus { (connect client o.connectOutcome).1 with
        transactionId :=
          ((connect client o.connectOutcome).1.transactionId + 1) % 4294967296 }
        frame).2 := by
    rw [sendPayload_main client token payload o h1 h2 h3, h4]
    simp [if_pos h5]
  refine ⟨?_, ?_, ?_, ?_, ?_, ?_, ?_, ?_, ?_, ?_⟩
  case _ => intro hs; rw [heq]; simp only [processStatus]; rw [hs]
            simp [finishSend, isErr, errText]
  case _ => intro hs; rw [heq]; simp only [processStatus]; rw [hs]
            simp [finishSend, isErr, errText]
  case _ => intro hs; rw [heq]; simp only [processStatus]; rw [hs]
            simp [finishSend, isErr, errText]
  case _ => intro hs; rw [heq]; simp only [processStatus]; rw [hs]
            simp [finishSend, isErr, errText]
  case _ => intro hs; rw [heq]; simp only [processStatus]; rw [hs]
            simp [finishSend, isErr, errText]
  case _ => intro hs; rw [heq]; simp only [processStatus]; rw [hs]
            simp [finishSend, isErr, errText]
  case _ => intro hs; rw [heq]; simp only [processStatus]; rw [hs]
            simp [finishSend, isErr, errText]
  case _ => intro hs; rw [heq]; simp only [processStatus]; rw [hs]
            simp [finishSend, isErr, errText]
  case _ => intro hs; rw [heq]; simp only [processStatus]; rw [hs]
            simp [finishSend, isErr, errText]
  case _ =>
    intro h0 hne
    rw [heq]
    simp only [processStatus]
    rw [if_neg h0, if_neg hne]
    simp [finishSend, isErr]

/-- Claim C6, witness: the unrecognized status byte 9 yields the
unknown-status error whose message carries the lowercase hex of the
2-byte frame that was read. -/
theorem status_byte_messages_witness :
    (SendPayload connectedClient [1] [2]
      ⟨.handshakeOk, 0, true, .bytes [8, 9]⟩).2 =
      .unknownStatus ("Unknown error code " ++ hexEncodeToString [8, 9] ++ " ") :=
  (status_byte_messages connectedClient [1] [2]
    ⟨.handshakeOk, 0, true, .bytes [8, 9]⟩ [8, 9]
    (by decide) (by decide) rfl rfl
    (by decide)).2.2.2.2.2.2.2.2.2 (by decide) (by decide)

/-- Claim C9: from a freshly constructed client, every sequence of
connect, shutdown and SendPayload operations (under every I/O oracle)
preserves the invariant that the connected flag is true exactly when the
stream handle is present, open, and its handshake succeeded; in
particular a shutdown leaves the client disconnected, and a connect
whose handshake fails leaves a disconnected client disconnected. -/
theorem connected_flag_invariant (ops : List Op) :
    clientInvariant (runOps newClient ops) = true ∧
    (shutdown (runOps newClient ops)).connected = false ∧
    ((runOps newClient ops).connected = false →
      (connect (runOps newClient ops) .handshakeFail).1.connected = false) := by
  have hinv : clientInvariant (runOps newClient ops) = true :=
    inv_runOps newClient ops (by decide)
  exact ⟨hinv, shutdown_connected_false _ hinv,
    fun hc => connect_handshakeFail_connected _ hc⟩

/-- Claim C9, witness: the freshly constructed client satisfies the
invariant, shutting it down leaves it disconnected, and a
failed-handshake connect leaves it disconnected. -/
theorem connected_flag_invariant_witness :
    clientInvariant (runOps newClient []) = true ∧
    (shutdown (runOps newClient [])).connected = false ∧
    (connect (runOps newClient []) .handshakeFail).1.connected = false :=
  ⟨(connected_flag_invariant []).1, (connected_flag_invariant []).2.1,
    (connected_flag_invariant []).2.2 (by decide)⟩

/-- Claim C1: the claim states that when, after end-of-stream, all 3
reconnect attempts fail, the poller terminates its output with a fatal
signal and never attempts a further read or reconnect.  The code
violates this: the `if count == 3` panic guard sits inside
`for count := 0; count < 3`, where count only takes the values 0, 1 and
2, so it can never fire; when every reconnect attempt fails the loop
exits normally and control falls through to another Read on the
shut-down connection.  First conjunct: with all attempts failing, the
loop iteration continues to the next read rather than raising the fatal
signal.  Second conjunct: no end-of-stream handling, under any oracle of
reconnect outcomes, ever produces the fatal panic. -/
theorem reconnect_exhaustion_reads_again :
    feedbackLoopBody .eof (fun _ => false) = .continueReading ∧
    ∀ (f : Nat → Bool) (m : String),
      (feedbackLoopBody .eof f == .fatalPanic m) = false := by
  constructor
  · simp [feedbackLoopBody, reconnectLoop]
  · intro f m
    have key : ∀ (k c : Nat), 3 - c ≤ k → ∀ m', reconnectLoop f c ≠ .panicked m' := by
      intro k
      induction k with
      | zero =>
        intro c hc m'
        rw [reconnectLoop, if_neg (by omega)]
        simp
      | succ k ih =>
        intro c hc m'
        rw [reconnectLoop]
        by_cases h3 : c < 3
        · rw [if_pos h3]
          cases hf : f c with
          | true => simp
          | false =>
            rw [if_neg (by simp), if_neg (by simp; omega)]
            exact ih (c + 1) (by omega) m'
        · rw [if_neg h3]; simp
    cases hr : reconnectLoop f 0 with
    | reconnected k => simp [feedbackLoopBody, hr]
    | panicked m' => exact absurd hr (key 3 0 (by omega) m')
    | fellThrough => simp [feedbackLoopBody, hr]

end Apns
